import Mathlib

/-!
Verification of the BME680 Raspberry Pi driver (`bme680_lib.cpp`) and its
CLI front end (`bme680m.cpp`) against the repository's specification.

The measurement-cycle state machine of `rasp_BME680` is embedded shallowly:
the session object becomes an explicit `Session` record, the Bosch driver
and the clock become an `Env` record of mocked results, and every driver
invocation is recorded in a `DriverCall` trace.  C unsigned arithmetic is
modelled on `Nat` with explicit reductions modulo 2^32 / 2^64 where the
source narrows or can overflow.  IEEE float values stored in the reading
cache are modelled as `Option ℚ` with `none` playing the role of NaN (the
source only ever produces NaN through the literal `NAN`), and the C float
`==` operator is modelled by `feq`, which is false whenever either side is
NaN.  The dew-point calculation is modelled over `ℝ`.
-/

namespace BME680

/-! ### Constants

Modelled from the spec: the constants below come from the Bosch vendor
headers `bme680.h` / `bme680_defs.h` (library version 3.5.9), which the
repository depends on but which are not part of the three source files.
The spec treats the Bosch layer as the external "compensation capability";
the oversampling and filter codes are the enum codes 0..5 / 0..7, the
status masks are single distinct bits.
-/

def BME680_NEW_DATA_MSK : Nat := 0x80
def BME680_HEAT_STAB_MSK : Nat := 0x10
def BME680_FORCED_MODE : Nat := 1
def BME680_OS_NONE : Nat := 0
def BME680_OS_1X : Nat := 1
def BME680_OS_2X : Nat := 2
def BME680_OS_4X : Nat := 3
def BME680_OS_8X : Nat := 4
def BME680_OS_16X : Nat := 5
def BME680_FILTER_SIZE_0 : Nat := 0
def BME680_FILTER_SIZE_1 : Nat := 1
def BME680_FILTER_SIZE_3 : Nat := 2
def BME680_FILTER_SIZE_7 : Nat := 3
def BME680_FILTER_SIZE_15 : Nat := 4
def BME680_FILTER_SIZE_31 : Nat := 5
def BME680_FILTER_SIZE_63 : Nat := 6
def BME680_FILTER_SIZE_127 : Nat := 7
def BME680_OST_SEL : Nat := 1
def BME680_OSP_SEL : Nat := 2
def BME680_OSH_SEL : Nat := 4
def BME680_FILTER_SEL : Nat := 16
def BME680_GAS_SENSOR_SEL : Nat := 8 ||| 32 ||| 64

/-! ### Data model -/

/-- `struct bme680_field_data` as returned by the compensation capability
(`bme680_get_sensor_data`): a status bitmask (uint8) and the compensated
integer readings (temperature int16 in centi-degrees, pressure in Pa,
humidity in milli-percent, gas resistance in ohms). -/
structure FieldData where
  status : Nat
  temperature : Int
  pressure : Nat
  humidity : Nat
  gas_resistance : Nat
deriving DecidableEq

/-- The mutable state of a `rasp_BME680` object: the cached readings
(`temperature`, `pressure`, `humidity` are C floats, modelled as
`Option ℚ` with `none` for NaN; `gas_resistance` is surfaced as uint32),
the per-channel enable flags, the `tph_sett`/`gas_sett` configuration
fields pushed into the Bosch device struct, the power mode, and the
`_meas_end` deadline (unsigned long, 0 meaning "no cycle in progress"). -/
structure Session where
  temperature : Option ℚ
  humidity : Option ℚ
  pressure : Option ℚ
  gas_resistance : Nat
  tempEnabled : Bool
  humEnabled : Bool
  presEnabled : Bool
  gasEnabled : Bool
  filterEnabled : Bool
  os_temp : Nat
  os_hum : Nat
  os_pres : Nat
  filter : Nat
  power_mode : Nat
  meas_end : Nat
deriving DecidableEq

/-- Mocked environment for one measurement cycle: the results the Bosch
driver calls and the `millis()` clock would return.  `settings_ok` /
`mode_ok` mock `bme680_set_sensor_settings` / `bme680_set_sensor_mode`
returning `BME680_OK`; `meas_period` mocks the uint16 duration reported by
`bme680_get_profile_dur`; `now_begin` / `now_fetch` are the values of
`millis()` observed inside `beginReading` and `performReading`;
`field_data` mocks `bme680_get_sensor_data` (`none` = driver error). -/
structure Env where
  settings_ok : Bool
  mode_ok : Bool
  meas_period : Nat
  now_begin : Nat
  now_fetch : Nat
  field_data : Option FieldData
deriving DecidableEq

/-- One observable call into the Bosch driver layer / transport. -/
inductive DriverCall where
  | setSettings (bits : Nat)
  | setMode
  | getProfileDur
  | delay (ms : Nat)
  | getData
deriving DecidableEq

/-! ### Sensor session operations (from `bme680_lib.cpp`) -/

/-- The `set_required_settings` bitset built at the top of
`rasp_BME680::beginReading` from the enable flags. -/
def requiredSettings (s : Session) : Nat :=
  (if s.tempEnabled then BME680_OST_SEL else 0) |||
  (if s.humEnabled then BME680_OSH_SEL else 0) |||
  (if s.presEnabled then BME680_OSP_SEL else 0) |||
  (if s.filterEnabled then BME680_FILTER_SEL else 0) |||
  (if s.gasEnabled then BME680_GAS_SENSOR_SEL else 0)

/-- Result of `rasp_BME680::beginReading`: the returned `unsigned long`
(the deadline, or 0 for the C++ `return (false)` error paths), the updated
session state, and the trace of driver calls made. -/
structure BeginResult where
  ret : Nat
  sess : Session
  calls : List DriverCall
deriving DecidableEq

/-- `rasp_BME680::beginReading`.  If a measurement is already in progress
(`_meas_end != 0`) it returns the stored deadline and does nothing else.
Otherwise it sets forced power mode, pushes the sensor settings
(failure: returns `false`, i.e. 0), sets the sensor mode (failure:
returns 0), queries the profile duration and stores
`_meas_end = millis() + meas_period`. -/
def beginReading (env : Env) (s : Session) : BeginResult :=
  if s.meas_end ≠ 0 then ⟨s.meas_end, s, []⟩
  else
    let s1 := { s with power_mode := BME680_FORCED_MODE }
    let bits := requiredSettings s1
    if ¬env.settings_ok then ⟨0, s1, [.setSettings bits]⟩
    else if ¬env.mode_ok then ⟨0, s1, [.setSettings bits, .setMode]⟩
    else
      let m := (env.now_begin + env.meas_period % 2 ^ 16) % 2 ^ 64
      ⟨m, { s1 with meas_end := m }, [.setSettings bits, .setMode, .getProfileDur]⟩

/-- C logical negation `!x` on an integer value: 1 if the value is zero,
0 otherwise. -/
def cNot (x : Nat) : Nat := if x = 0 then 1 else 0

/-- Result of `rasp_BME680::performReading`: the returned `bool`, the
updated session state, and the trace of driver calls. -/
structure PerformResult where
  ok : Bool
  sess : Session
  calls : List DriverCall
deriving DecidableEq

/-- `rasp_BME680::performReading`.  Triggers `beginReading`; fails if that
returned 0.  If the deadline lies in the future, delays for twice the
remaining time (the `unsigned long` product is narrowed to the uint32
parameter of `delay_ms`).  Clears `_meas_end`, retrieves the field data
(failure: returns false).  The source's stale-data test is
`if ( ! data.status & BME680_NEW_DATA_MSK)`, in which `!` binds before
`&`, so it is embedded as `cNot data.status &&& BME680_NEW_DATA_MSK ≠ 0`
exactly as the C parses.  Otherwise each enabled channel is assigned its
compensated value and each disabled one NaN; `gas_resistance` is only
touched when gas is enabled, gated on the heater-stability bit. -/
def performReading (env : Env) (s : Session) : PerformResult :=
  let b := beginReading env s
  if b.ret = 0 then ⟨false, b.sess, b.calls⟩
  else
    let calls1 :=
      if b.ret > env.now_fetch then
        b.calls ++ [.delay ((b.ret - env.now_fetch) * 2 % 2 ^ 32)]
      else b.calls
    let s1 := { b.sess with meas_end := 0 }
    match env.field_data with
    | none => ⟨false, s1, calls1 ++ [.getData]⟩
    | some data =>
      if cNot data.status &&& BME680_NEW_DATA_MSK ≠ 0 then
        ⟨true, { s1 with temperature := none, pressure := none, humidity := none,
                         gas_resistance := 0 }, calls1 ++ [.getData]⟩
      else
        let s2 := { s1 with
          temperature := if s1.tempEnabled then some ((data.temperature : ℚ) / 100) else none,
          humidity := if s1.humEnabled then some ((data.humidity : ℚ) / 1000) else none,
          pressure := if s1.presEnabled then some ((data.pressure : ℚ)) else none }
        let s3 :=
          if s1.gasEnabled then
            if data.status &&& BME680_HEAT_STAB_MSK ≠ 0 then
              { s2 with gas_resistance := data.gas_resistance }
            else
              { s2 with gas_resistance := 0 }
          else s2
        ⟨true, s3, calls1 ++ [.getData]⟩

/-- `rasp_BME680::setTemperatureOversampling`. -/
def setTemperatureOversampling (s : Session) (oversample : Nat) : Bool × Session :=
  if oversample > BME680_OS_16X then (false, s)
  else
    let s1 := { s with os_temp := oversample }
    if oversample = BME680_OS_NONE then (true, { s1 with tempEnabled := false })
    else (true, { s1 with tempEnabled := true })

/-- `rasp_BME680::setHumidityOversampling`. -/
def setHumidityOversampling (s : Session) (oversample : Nat) : Bool × Session :=
  if oversample > BME680_OS_16X then (false, s)
  else
    let s1 := { s with os_hum := oversample }
    if oversample = BME680_OS_NONE then (true, { s1 with humEnabled := false })
    else (true, { s1 with humEnabled := true })

/-- `rasp_BME680::setPressureOversampling`. -/
def setPressureOversampling (s : Session) (oversample : Nat) : Bool × Session :=
  if oversample > BME680_OS_16X then (false, s)
  else
    let s1 := { s with os_pres := oversample }
    if oversample = BME680_OS_NONE then (true, { s1 with presEnabled := false })
    else (true, { s1 with presEnabled := true })

/-- `rasp_BME680::setIIRFilterSize`. -/
def setIIRFilterSize (s : Session) (filtersize : Nat) : Bool × Session :=
  if filtersize > BME680_FILTER_SIZE_127 then (false, s)
  else
    let s1 := { s with filter := filtersize }
    if filtersize = BME680_FILTER_SIZE_0 then (true, { s1 with filterEnabled := false })
    else (true, { s1 with filterEnabled := true })

/-- `rasp_BME680::readTemperature`: performs a reading, returns the cached
temperature (the `bool` result of `performReading` is discarded). -/
def readTemperature (env : Env) (s : Session) : Option ℚ × Session :=
  let r := performReading env s
  (r.sess.temperature, r.sess)

/-- `rasp_BME680::readHumidity`. -/
def readHumidity (env : Env) (s : Session) : Option ℚ × Session :=
  let r := performReading env s
  (r.sess.humidity, r.sess)

/-- `rasp_BME680::readPressure`. -/
def readPressure (env : Env) (s : Session) : Option ℚ × Session :=
  let r := performReading env s
  (r.sess.pressure, r.sess)

/-- `rasp_BME680::readGas`: performs a reading, returns the cached gas
resistance as uint32. -/
def readGas (env : Env) (s : Session) : Nat × Session :=
  let r := performReading env s
  (r.sess.gas_resistance, r.sess)

/-! ### Dew point (`rasp_BME680::calc_dewpoint`), over ℝ -/

/-- The intermediate `H` of `calc_dewpoint`:
`H = log(hum/100) + ((17.625 * temp) / (243.12 + temp))`. -/
noncomputable def dewpoint_H (temp hum : ℝ) : ℝ :=
  Real.log (hum / 100) + 17.625 * temp / (243.12 + temp)

/-- `rasp_BME680::calc_dewpoint`, with C `float` arithmetic modelled by
exact real arithmetic: `td = 243.04 * H / (17.625 - H)`. -/
noncomputable def calc_dewpoint (temp hum : ℝ) : ℝ :=
  243.04 * dewpoint_H temp hum / (17.625 - dewpoint_H temp hum)

/-- The Magnus approximation exactly as the specification words it:
`H = ln(hum/100) + (17.625*temp)/(243.12+temp)`;
`dewPoint = 243.04*H / (17.625-H)`. -/
noncomputable def dewPoint_spec (temp hum : ℝ) : ℝ :=
  243.04 * (Real.log (hum / 100) + 17.625 * temp / (243.12 + temp)) /
    (17.625 - (Real.log (hum / 100) + 17.625 * temp / (243.12 + temp)))

/-! ### CLI layer (`bme680m.cpp`) -/

/-- C float `==` on NaN-or-value: an IEEE comparison involving NaN is
always false; on two non-NaN values it is numeric equality. -/
def feq : Option ℚ → Option ℚ → Bool
  | some x, some y => x == y
  | _, _ => false

/-- The `NAN` literal the CLI compares against. -/
def fNAN : Option ℚ := none

/-- The reading-related fields of the CLI's `struct bmeval`. -/
structure BmeVal where
  tempC : Option ℚ
  humid : Option ℚ
  pressure : Option ℚ
  gas_resistance : Nat
deriving DecidableEq

/-- `read_BME680` from the CLI: reads temperature, humidity, pressure and
gas in sequence (each triggering a full `performReading`, mocked here by
`e1`..`e4`), returning false at the first guard that fires.  The guards
for the three float channels compare with `== NAN` (`feq _ fNAN`); the
gas guard compares the uint32 with 0.  On success it additionally calls
`readAltitude`, which performs one more reading (`e5`); the derived float
`height` and `dewpoint` outputs do not feed back into the guards or the
result and are not tracked here. -/
def read_BME680 (e1 e2 e3 e4 e5 : Env) (s : Session) (mm : BmeVal) :
    Bool × BmeVal × Session :=
  let t := readTemperature e1 s
  let mm1 := { mm with tempC := t.1 }
  if feq mm1.tempC fNAN then (false, mm1, t.2)
  else
    let h := readHumidity e2 t.2
    let mm2 := { mm1 with humid := h.1 }
    if feq mm2.humid fNAN then (false, mm2, h.2)
    else
      let p := readPressure e3 h.2
      let mm3 := { mm2 with pressure := p.1 }
      if feq mm3.pressure fNAN then (false, mm3, p.2)
      else
        let g := readGas e4 p.2
        let mm4 := { mm3 with gas_resistance := g.1 }
        if mm4.gas_resistance = 0 then (false, mm4, g.2)
        else
          let s5 := (performReading e5 g.2).sess
          (true, mm4, s5)

/-! ### Concrete fixtures for witnesses and counterexamples -/

/-- Field data whose status has the new-data bit (0x80) and the
heater-stable bit (0x10) set. -/
def sampleData : FieldData := ⟨0x90, 2000, 100000, 45000, 777⟩

/-- Field data whose status carries the heater-stable bit but NOT the
new-data bit: a stale-data reading. -/
def staleData : FieldData := ⟨0x10, 2000, 100000, 45000, 777⟩

/-- A session with all channels enabled, cached readings 1 / 2 / 3 / 42,
and no measurement in progress. -/
def sampleSession : Session :=
  ⟨some 1, some 2, some 3, 42, true, true, true, true, true, 4, 2, 3, 2, 1, 0⟩

/-- `sampleSession` with a measurement in progress (deadline 100). -/
def inProgressSession : Session := { sampleSession with meas_end := 100 }

/-- `inProgressSession` with gas measurement disabled. -/
def gasOffSession : Session := { inProgressSession with gasEnabled := false }

/-- `inProgressSession` with gas and temperature measurement disabled. -/
def gasTempOffSession : Session :=
  { inProgressSession with gasEnabled := false, tempEnabled := false }

/-- An environment where every driver call succeeds and `millis()` is
already past any deadline at fetch time. -/
def okEnv : Env := ⟨true, true, 50, 10, 200, some sampleData⟩

/-- An environment where every driver call succeeds and `millis()` at
fetch time (20) is still before the deadline 100 of
`inProgressSession`. -/
def waitEnv : Env := ⟨true, true, 50, 10, 20, some sampleData⟩

/-- `okEnv` but the field data is stale (`staleData`). -/
def staleEnv : Env := { okEnv with field_data := some staleData }

/-- An environment where `bme680_set_sensor_settings` fails. -/
def badSettingsEnv : Env := ⟨false, true, 50, 10, 200, some sampleData⟩

/-- An environment where `bme680_get_sensor_data` fails. -/
def badDataEnv : Env := ⟨true, true, 50, 10, 200, none⟩

/-! ### Helper lemmas -/

/-- The source's stale-data condition `! data.status & BME680_NEW_DATA_MSK`
is identically zero: `!` yields 0 or 1 and the mask 0x80 has no bit in
common with either, so the branch is dead code. -/
theorem cNot_land_newdata (st : Nat) : cNot st &&& BME680_NEW_DATA_MSK = 0 := by
  unfold cNot BME680_NEW_DATA_MSK
  split <;> decide

/-- `beginReading` never changes the cached readings or the enable flags. -/
theorem beginReading_frame (env : Env) (s : Session) :
    (beginReading env s).sess.temperature = s.temperature ∧
    (beginReading env s).sess.humidity = s.humidity ∧
    (beginReading env s).sess.pressure = s.pressure ∧
    (beginReading env s).sess.gas_resistance = s.gas_resistance ∧
    (beginReading env s).sess.tempEnabled = s.tempEnabled ∧
    (beginReading env s).sess.humEnabled = s.humEnabled ∧
    (beginReading env s).sess.presEnabled = s.presEnabled ∧
    (beginReading env s).sess.gasEnabled = s.gasEnabled := by
  simp only [beginReading]
  split_ifs <;> simp

/-- A `beginReading` call while a measurement is in progress returns the
stored deadline, leaves the session untouched and performs no driver
call. -/
theorem beginReading_inProgress (env : Env) (s : Session) (h : s.meas_end ≠ 0) :
    beginReading env s = ⟨s.meas_end, s, []⟩ := by
  unfold beginReading
  rw [if_pos h]

/-- When `beginReading` returns a nonzero deadline, that deadline is the
stored `_meas_end` of the resulting session state. -/
theorem beginReading_meas_end (env : Env) (s : Session)
    (h : (beginReading env s).ret ≠ 0) :
    (beginReading env s).sess.meas_end = (beginReading env s).ret := by
  revert h
  simp only [beginReading]
  split_ifs <;> simp

/-! ### Claims -/

/-- C1: the spec claims that a fetch whose field-data call succeeds but
whose status lacks the new-data flag sets temperature/humidity/pressure
to NaN, gas_resistance to 0, and still returns true.  The code's guard
`! data.status & BME680_NEW_DATA_MSK` parses as
`(!data.status) & 0x80`, which is identically 0, so the stale-data branch
is dead: at the failing input (status = 0x10, heater-stable only, no
new-data bit) the fetch returns true but assigns the stale compensated
values 20 / 45 / 100000 and gas resistance 777 instead of NaN/NaN/NaN/0. -/
theorem C1_stale_branch_dead :
    (∀ st : Nat, cNot st &&& BME680_NEW_DATA_MSK = 0) ∧
    (performReading staleEnv inProgressSession).ok = true ∧
    (performReading staleEnv inProgressSession).sess.temperature = some 20 ∧
    (performReading staleEnv inProgressSession).sess.humidity = some 45 ∧
    (performReading staleEnv inProgressSession).sess.pressure = some 100000 ∧
    (performReading staleEnv inProgressSession).sess.gas_resistance = 777 := by
  refine ⟨cNot_land_newdata, ?_, ?_, ?_, ?_, ?_⟩ <;>
    · simp only [performReading, beginReading, staleEnv, staleData,
        inProgressSession, sampleSession, okEnv, sampleData, cNot,
        BME680_NEW_DATA_MSK, BME680_HEAT_STAB_MSK, BME680_FORCED_MODE]
      norm_num

/-- C2: on a successful fetch that reports new data with gas measurement
enabled, `gas_resistance` is assigned the compensated value when the
heater-stable status bit is set and 0 otherwise, regardless of the raw
compensated gas value. -/
theorem C2_heater_stability_gate (env : Env) (s : Session) (data : FieldData)
    (hb : (beginReading env s).ret ≠ 0) (hd : env.field_data = some data)
    (hg : s.gasEnabled = true)
    (hnew : data.status &&& BME680_NEW_DATA_MSK ≠ 0) :
    (performReading env s).ok = true ∧
    (performReading env s).sess.gas_resistance =
      (if data.status &&& BME680_HEAT_STAB_MSK ≠ 0 then data.gas_resistance
       else 0) := by
  have hge := (beginReading_frame env s).2.2.2.2.2.2.2
  simp only [performReading, hd, hb, if_neg hb, cNot_land_newdata]
  simp only [ne_eq, not_true_eq_false, if_false, reduceCtorEq]
  split_ifs with h1 h2 h3 <;> simp_all

/-- C2 witness: at `okEnv` / `inProgressSession` (new data and heater
stable), the fetch succeeds and the gas resistance is the compensated
value 777. -/
theorem C2_heater_stability_gate_witness :
    (performReading okEnv inProgressSession).ok = true ∧
    (performReading okEnv inProgressSession).sess.gas_resistance =
      (if sampleData.status &&& BME680_HEAT_STAB_MSK ≠ 0 then
        sampleData.gas_resistance else 0) :=
  C2_heater_stability_gate okEnv inProgressSession sampleData (by decide)
    (by decide) (by decide) (by decide)

/-- C3: while a measurement cycle is in progress (nonzero stored
deadline), `beginReading` returns the stored deadline, leaves the session
state unchanged and performs no driver call (no configuration push, no
conversion start); consequently any two consecutive calls return the same
deadline. -/
theorem C3_beginReading_idempotent (env env2 : Env) (s : Session) :
    (s.meas_end ≠ 0 → beginReading env s = ⟨s.meas_end, s, []⟩) ∧
    ((beginReading env s).ret ≠ 0 →
      (beginReading env2 (beginReading env s).sess).ret =
        (beginReading env s).ret) := by
  constructor
  · intro h
    exact beginReading_inProgress env s h
  · intro h
    have hm := beginReading_meas_end env s h
    rw [beginReading_inProgress env2 _ (by rw [hm]; exact h)]
    exact hm

/-- C3 witness: with deadline 100 in progress, `beginReading` returns 100,
changes nothing, calls nothing, and a second call returns 100 again. -/
theorem C3_beginReading_idempotent_witness :
    beginReading okEnv inProgressSession = ⟨100, inProgressSession, []⟩ ∧
    (beginReading okEnv (beginReading okEnv inProgressSession).sess).ret =
      (beginReading okEnv inProgressSession).ret := by
  have h := C3_beginReading_idempotent okEnv okEnv inProgressSession
  exact ⟨h.1 (by decide), h.2 (by decide)⟩

/-- C4: the three oversampling setters succeed exactly on the six
oversampling codes `BME680_OS_NONE..BME680_OS_16X` (0..5), storing the
code and setting the enabled flag iff the code is not `BME680_OS_NONE`;
on any larger argument they return false and leave the session untouched.
`setIIRFilterSize` obeys the same contract over the eight filter-size
codes `BME680_FILTER_SIZE_0..BME680_FILTER_SIZE_127` (0..7), with the
filter enabled iff the code is not `BME680_FILTER_SIZE_0`. -/
theorem C4_setter_validation (s : Session) (os fs : Nat) :
    (os ≤ BME680_OS_16X →
      (setTemperatureOversampling s os).1 = true ∧
      (setTemperatureOversampling s os).2.os_temp = os ∧
      ((setTemperatureOversampling s os).2.tempEnabled = true ↔
        os ≠ BME680_OS_NONE) ∧
      (setHumidityOversampling s os).1 = true ∧
      (setHumidityOversampling s os).2.os_hum = os ∧
      ((setHumidityOversampling s os).2.humEnabled = true ↔
        os ≠ BME680_OS_NONE) ∧
      (setPressureOversampling s os).1 = true ∧
      (setPressureOversampling s os).2.os_pres = os ∧
      ((setPressureOversampling s os).2.presEnabled = true ↔
        os ≠ BME680_OS_NONE)) ∧
    (os > BME680_OS_16X →
      setTemperatureOversampling s os = (false, s) ∧
      setHumidityOversampling s os = (false, s) ∧
      setPressureOversampling s os = (false, s)) ∧
    (fs ≤ BME680_FILTER_SIZE_127 →
      (setIIRFilterSize s fs).1 = true ∧
      (setIIRFilterSize s fs).2.filter = fs ∧
      ((setIIRFilterSize s fs).2.filterEnabled = true ↔
        fs ≠ BME680_FILTER_SIZE_0)) ∧
    (fs > BME680_FILTER_SIZE_127 → setIIRFilterSize s fs = (false, s)) := by
  refine ⟨?_, ?_, ?_, ?_⟩
  · intro h
    have h5 : ¬os > BME680_OS_16X := by omega
    simp only [setTemperatureOversampling, setHumidityOversampling,
      setPressureOversampling, if_neg h5]
    by_cases h0 : os = BME680_OS_NONE <;> simp [h0]
  · intro h
    simp [setTemperatureOversampling, setHumidityOversampling,
      setPressureOversampling, h]
  · intro h
    have h7 : ¬fs > BME680_FILTER_SIZE_127 := by omega
    simp only [setIIRFilterSize, if_neg h7]
    by_cases h0 : fs = BME680_FILTER_SIZE_0 <;> simp [h0]
  · intro h
    simp [setIIRFilterSize, h]

/-- C4 witness: code 2 (`BME680_OS_2X`) succeeds and enables the channel;
code 9 fails on all three oversampling setters and leaves the session
unchanged; filter code 7 succeeds with the filter enabled; filter code 9
fails with the session unchanged. -/
theorem C4_setter_validation_witness :
    (setTemperatureOversampling sampleSession 2).1 = true ∧
    (setTemperatureOversampling sampleSession 2).2.os_temp = 2 ∧
    (setTemperatureOversampling sampleSession 2).2.tempEnabled = true ∧
    setTemperatureOversampling sampleSession 9 = (false, sampleSession) ∧
    (setIIRFilterSize sampleSession 7).1 = true ∧
    setIIRFilterSize sampleSession 9 = (false, sampleSession) := by
  have h2 := C4_setter_validation sampleSession 2 7
  have h9 := C4_setter_validation sampleSession 9 9
  exact ⟨(h2.1 (by decide)).1, (h2.1 (by decide)).2.1,
    ((h2.1 (by decide)).2.2.1).2 (by decide),
    (h9.2.1 (by decide)).1, (h2.2.2.1 (by decide)).1,
    h9.2.2.2 (by decide)⟩

/-- C5: when the settings-apply step (`bme680_set_sensor_settings`) fails
during a fresh `beginReading`, the call returns 0 (the C++
`return (false)`), the in-progress deadline stays cleared, and a later
`beginReading` against a healthy environment starts a fresh cycle and
returns its computed deadline — no stuck half-started cycle. -/
theorem C5_config_error_clears (env : Env) (s : Session)
    (h0 : s.meas_end = 0) (hfail : env.settings_ok = false) :
    (beginReading env s).ret = 0 ∧
    (beginReading env s).sess.meas_end = 0 ∧
    (∀ env2 : Env, env2.settings_ok = true → env2.mode_ok = true →
      (beginReading env2 (beginReading env s).sess).ret =
        (env2.now_begin + env2.meas_period % 2 ^ 16) % 2 ^ 64) := by
  refine ⟨?_, ?_, ?_⟩
  · simp [beginReading, h0, hfail]
  · simp [beginReading, h0, hfail]
  · intro env2 hs2 hm2
    simp [beginReading, h0, hfail, hs2, hm2]

/-- C5 witness: at `badSettingsEnv` / `sampleSession` the trigger fails
with 0, the deadline stays 0, and a retrigger against `okEnv` computes a
fresh deadline. -/
theorem C5_config_error_clears_witness :
    (beginReading badSettingsEnv sampleSession).ret = 0 ∧
    (beginReading badSettingsEnv sampleSession).sess.meas_end = 0 ∧
    (beginReading okEnv (beginReading badSettingsEnv sampleSession).sess).ret =
      (okEnv.now_begin + okEnv.meas_period % 2 ^ 16) % 2 ^ 64 := by
  have h := C5_config_error_clears badSettingsEnv sampleSession (by decide)
    (by decide)
  exact ⟨h.1, h.2.1, h.2.2 okEnv (by decide) (by decide)⟩

/-- C6 counterexample: the claim "either all four channels are updated
together or none are" fails at a successful fetch with gas measurement
disabled: the fetch succeeds, temperature is overwritten (some 1 becomes
some 20) while gas_resistance keeps its previous cached value 42. -/
theorem C6_all_or_none_counterexample :
    (performReading okEnv gasOffSession).ok = true ∧
    gasOffSession.temperature = some 1 ∧
    (performReading okEnv gasOffSession).sess.temperature = some 20 ∧
    gasOffSession.gas_resistance = 42 ∧
    (performReading okEnv gasOffSession).sess.gas_resistance = 42 := by
  refine ⟨?_, by decide, ?_, by decide, ?_⟩ <;>
    · simp only [performReading, beginReading, okEnv, sampleData,
        gasOffSession, inProgressSession, sampleSession, cNot,
        BME680_NEW_DATA_MSK, BME680_HEAT_STAB_MSK, BME680_FORCED_MODE]
      norm_num

/-- C6 (amended): a fetch that returns an error leaves all four cached
readings untouched; a successful fetch overwrites temperature, humidity
and pressure together (enabled channels with the compensated value,
disabled ones with NaN), and overwrites gas_resistance only when gas
measurement is enabled — with gas disabled the previous cached
gas_resistance persists. -/
theorem C6_fetch_atomicity (env : Env) (s : Session) :
    ((performReading env s).ok = false →
      (performReading env s).sess.temperature = s.temperature ∧
      (performReading env s).sess.humidity = s.humidity ∧
      (performReading env s).sess.pressure = s.pressure ∧
      (performReading env s).sess.gas_resistance = s.gas_resistance) ∧
    ((performReading env s).ok = true →
      (∃ d, env.field_data = some d ∧
        (performReading env s).sess.temperature =
          (if s.tempEnabled then some ((d.temperature : ℚ) / 100) else none) ∧
        (performReading env s).sess.humidity =
          (if s.humEnabled then some ((d.humidity : ℚ) / 1000) else none) ∧
        (performReading env s).sess.pressure =
          (if s.presEnabled then some ((d.pressure : ℚ)) else none)) ∧
      (s.gasEnabled = false →
        (performReading env s).sess.gas_resistance = s.gas_resistance)) := by
  have hf := beginReading_frame env s
  obtain ⟨hT, hH, hP, hG, hTe, hHe, hPe, hGe⟩ := hf
  by_cases hb : (beginReading env s).ret = 0
  · simp only [performReading, hb, if_pos, if_true, reduceIte]
    exact ⟨fun _ => ⟨hT, hH, hP, hG⟩, fun h => by simp at h⟩
  · cases hd : env.field_data with
    | none =>
      simp only [performReading, hd, if_neg hb]
      exact ⟨fun _ => ⟨hT, hH, hP, hG⟩, fun h => by simp at h⟩
    | some d =>
      simp only [performReading, hd, if_neg hb, cNot_land_newdata, ne_eq,
        not_true_eq_false, if_false, reduceCtorEq]
      constructor
      · exact fun h => h.elim
      · intro _
        constructor
        · refine ⟨d, rfl, ?_⟩
          split_ifs with hgas hstab <;>
            simp_all
        · intro hgoff
          have : (beginReading env s).sess.gasEnabled = false := by
            rw [hGe]; exact hgoff
          split_ifs <;> simp_all

/-- C6 witness: a failing fetch (driver read error at `badDataEnv`)
leaves the cached temperature and gas resistance of `inProgressSession`
untouched. -/
theorem C6_fetch_atomicity_witness :
    (performReading badDataEnv inProgressSession).sess.temperature =
      inProgressSession.temperature ∧
    (performReading badDataEnv inProgressSession).sess.gas_resistance =
      inProgressSession.gas_resistance := by
  have h := (C6_fetch_atomicity badDataEnv inProgressSession).1 (by decide)
  exact ⟨h.1, h.2.2.2⟩

/-- C7: when the deadline returned by `beginReading` lies strictly after
`millis()` at fetch time, `performReading` issues exactly one delay of
twice the remaining time (narrowed to uint32) before the data retrieval
call; with no uint32 wrap the delay is exactly `2 * remaining`.  When the
deadline has already passed, no delay call is made. -/
theorem C7_double_wait (env : Env) (s : Session)
    (hb : (beginReading env s).ret ≠ 0) :
    ((beginReading env s).ret > env.now_fetch →
      (performReading env s).calls =
        (beginReading env s).calls ++
          [DriverCall.delay
            (((beginReading env s).ret - env.now_fetch) * 2 % 2 ^ 32),
           DriverCall.getData] ∧
      (((beginReading env s).ret - env.now_fetch) * 2 < 2 ^ 32 →
        ((beginReading env s).ret - env.now_fetch) * 2 % 2 ^ 32 =
          ((beginReading env s).ret - env.now_fetch) * 2)) ∧
    ((beginReading env s).ret ≤ env.now_fetch →
      (performReading env s).calls =
        (beginReading env s).calls ++ [DriverCall.getData]) := by
  constructor
  · intro hgt
    refine ⟨?_, fun hlt => Nat.mod_eq_of_lt hlt⟩
    simp only [performReading, if_neg hb, hgt, if_pos hgt]
    cases hd : env.field_data with
    | none => simp
    | some d =>
      simp only [cNot_land_newdata, ne_eq, not_true_eq_false, if_false,
        reduceCtorEq]
      split_ifs <;> simp
  · intro hle
    have hngt : ¬(beginReading env s).ret > env.now_fetch := by omega
    simp only [performReading, if_neg hb, if_neg hngt]
    cases hd : env.field_data with
    | none => simp
    | some d => simp [cNot_land_newdata]

/-- C7 witness: deadline 100, fetch-time clock 20 — the single delay call
is for (100 - 20) * 2 = 160 ms and precedes the data retrieval. -/
theorem C7_double_wait_witness :
    (performReading waitEnv inProgressSession).calls =
      (beginReading waitEnv inProgressSession).calls ++
        [DriverCall.delay 160, DriverCall.getData] := by
  have h := (C7_double_wait waitEnv inProgressSession (by decide)).1 (by decide)
  simpa using h.1

/-- C9: on a successful fetch reporting new data with gas measurement
disabled, `performReading` leaves `gas_resistance` completely unchanged
(neither 0 nor NaN is written), while any disabled
temperature/humidity/pressure channel is overwritten with NaN on the same
fetch. -/
theorem C9_gas_disabled_frame (env : Env) (s : Session) (data : FieldData)
    (hb : (beginReading env s).ret ≠ 0) (hd : env.field_data = some data)
    (hnew : data.status &&& BME680_NEW_DATA_MSK ≠ 0)
    (hg : s.gasEnabled = false) :
    (performReading env s).ok = true ∧
    (performReading env s).sess.gas_resistance = s.gas_resistance ∧
    (s.tempEnabled = false → (performReading env s).sess.temperature = none) ∧
    (s.humEnabled = false → (performReading env s).sess.humidity = none) ∧
    (s.presEnabled = false → (performReading env s).sess.pressure = none) := by
  obtain ⟨hT, hH, hP, hG, hTe, hHe, hPe, hGe⟩ := beginReading_frame env s
  simp only [performReading, hd, if_neg hb, cNot_land_newdata, ne_eq,
    not_true_eq_false, if_false, reduceCtorEq]
  split_ifs <;> simp_all

/-- C9 witness: with gas and temperature disabled, a successful fetch
keeps gas_resistance at the cached 42 and writes NaN into temperature. -/
theorem C9_gas_disabled_frame_witness :
    (performReading okEnv gasTempOffSession).ok = true ∧
    (performReading okEnv gasTempOffSession).sess.gas_resistance =
      gasTempOffSession.gas_resistance ∧
    (performReading okEnv gasTempOffSession).sess.temperature = none := by
  have h := C9_gas_disabled_frame okEnv gasTempOffSession sampleData
    (by decide) (by decide) (by decide) (by decide)
  exact ⟨h.1, h.2.1, h.2.2.1 (by decide)⟩

/-- C8: `calc_dewpoint` computes exactly the Magnus approximation the
spec states (`H = ln(hum/100) + (17.625*temp)/(243.12+temp)`,
`dewPoint = 243.04*H/(17.625-H)`); at 20 °C / 50 % RH the result is
within 0.1 °C of 9.26 °C; and for humidity ≤ 0 the argument `hum/100`
passed to the logarithm is outside its positive domain (the C float code
yields NaN there). -/
theorem C8_dewpoint_magnus :
    (∀ temp hum : ℝ, calc_dewpoint temp hum = dewPoint_spec temp hum) ∧
    |calc_dewpoint 20 50 - 9.26| < 0.1 ∧
    (∀ hum : ℝ, hum ≤ 0 → ¬0 < hum / 100) := by
  refine ⟨fun t h => rfl, ?_, fun hum hh hc => by linarith⟩
  have hl1 : (0.6931471803 : ℝ) < Real.log 2 := Real.log_two_gt_d9
  have hl2 : Real.log 2 < 0.6931471808 := Real.log_two_lt_d9
  have hlog : Real.log ((50 : ℝ) / 100) = -Real.log 2 := by
    rw [show ((50 : ℝ) / 100) = 2⁻¹ by norm_num, Real.log_inv]
  have hHb : dewpoint_H 20 50 = 352.5 / 263.12 - Real.log 2 := by
    unfold dewpoint_H
    rw [hlog]
    ring_nf
  have hq1 : (1.339647181 : ℝ) < 352.5 / 263.12 := by norm_num
  have hq2 : (352.5 : ℝ) / 263.12 < 1.33970 := by norm_num
  have hH1 : (0.6465 : ℝ) < dewpoint_H 20 50 := by rw [hHb]; linarith
  have hH2 : dewpoint_H 20 50 < 0.64656 := by rw [hHb]; linarith
  have hden : (0 : ℝ) < 17.625 - dewpoint_H 20 50 := by linarith
  have hcd : calc_dewpoint 20 50 =
      243.04 * dewpoint_H 20 50 / (17.625 - dewpoint_H 20 50) := rfl
  rw [hcd, abs_lt]
  constructor
  · have h916 : (9.16 : ℝ) <
        243.04 * dewpoint_H 20 50 / (17.625 - dewpoint_H 20 50) := by
      rw [lt_div_iff₀ hden]
      nlinarith
    linarith
  · have h936 : 243.04 * dewpoint_H 20 50 / (17.625 - dewpoint_H 20 50) <
        (9.36 : ℝ) := by
      rw [div_lt_iff₀ hden]
      nlinarith
    linarith

/-- C8 witness: the formula identity instantiated at (20, 50) and the
domain clause instantiated at humidity -5. -/
theorem C8_dewpoint_magnus_witness :
    calc_dewpoint 20 50 = dewPoint_spec 20 50 ∧
    ¬(0 : ℝ) < (-5 : ℝ) / 100 :=
  ⟨C8_dewpoint_magnus.1 20 50, C8_dewpoint_magnus.2.2 (-5) (by norm_num)⟩

/-- C10: in the CLI's `read_BME680`, the `== NAN` guards on temperature,
humidity and pressure can never fire (an IEEE comparison with NaN is
false), so the function returns false exactly when the gas guard fires,
i.e. when the gas resistance fetched by `readGas` is 0 — a
heater-unstable reading aborts the program while NaN channel readings
pass through undetected. -/
theorem C10_gas_guard_only (e1 e2 e3 e4 e5 : Env) (s : Session)
    (mm : BmeVal) :
    (∀ x : Option ℚ, feq x fNAN = false) ∧
    ((read_BME680 e1 e2 e3 e4 e5 s mm).1 = false ↔
      (read_BME680 e1 e2 e3 e4 e5 s mm).2.1.gas_resistance = 0) := by
  have hne : ∀ x : Option ℚ, feq x fNAN = false := by
    intro x
    cases x <;> rfl
  refine ⟨hne, ?_⟩
  simp only [read_BME680, hne, Bool.false_eq_true, if_false]
  split_ifs with hg
  · simp [hg]
  · simp [hg]

end BME680
